import Mathlib

/-!
Shallow embedding of the MFlux flux-reconciliation core (src/libflux.py).

Python dicts keyed by integers are embedded as `Nat → Option ℚ`; a missing
key (Python `KeyError`) surfaces as an `Except.error`.  Real arithmetic is
embedded over `ℚ`.  The 29-dimensional flux space is `Fin 29 → ℚ`, with the
1-indexed flux id k of the source living at function index k-1, exactly as
the numpy arrays store it after the "+1 then slice" offset trick.

The external convex-QP solver (cvxopt, not part of the repository sources)
is kept abstract: `SolverContract` records the contract the specification
assigns to it, and the orchestrator `reconcile` is parameterized by any
solver satisfying that contract.
-/

set_option maxHeartbeats 1000000

/-- An integer-keyed dictionary with rational values, as used for the
`Substrates` and `Fluxes` parameters of `quadprog_adjust`. -/
abbrev Dict := Nat → Option ℚ

/-- Failures of the embedded pipeline: a Python `KeyError` on the substrate
or flux dictionary, and the two failure modes the specification assigns to
the external QP solver. -/
inductive FluxErr where
  | keyErrorSubstrate : Nat → FluxErr
  | keyErrorFlux : Nat → FluxErr
  | infeasible : FluxErr
  | nonconvergence : FluxErr
  deriving DecidableEq

/-- Dictionary access `Substrates[k]`, raising `KeyError` when absent. -/
def subGet (d : Dict) (k : Nat) : Except FluxErr ℚ :=
  match d k with
  | some v => Except.ok v
  | none => Except.error (FluxErr.keyErrorSubstrate k)

/-- The all-zero 29-vector. -/
def zeroVec : Fin 29 → ℚ := fun _ => 0

/-- A row with a single (possibly zero) coefficient `c` at index `m`. -/
def singleRow (m : Fin 29) (c : ℚ) : Fin 29 → ℚ := fun j => if j = m then c else 0

/-- A numpy row of 29 zeros with `Row_vector[fluxId - 1] = c` set, as built by
`populate_boundary_inequalities` (the source only ever uses 1 ≤ fluxId ≤ 29;
for fluxId = 0 numpy would wrap to the last cell, a case never exercised). -/
def unitRow (fluxId : Nat) (c : ℚ) : Fin 29 → ℚ :=
  fun j => if (j : Nat) = fluxId - 1 then c else 0

/-- A 29-entry row assembled from MATLAB-style 1-indexed assignments
`A[r, p] = c`, mirroring the `Aineq[r,p] = c` lines of `quadprog_adjust`
followed by the `[1:, 1:]` slice.  Positions in `l` are 1-indexed. -/
def rowOf (l : List (Nat × ℚ)) : Fin 29 → ℚ := fun j =>
  match l.find? (fun pc => pc.1 = (j : Nat) + 1) with
  | some pc => pc.2
  | none => 0

/-- Pointwise negation of a row, for the `Aineq = -1 * Aineq` line. -/
def negRow (r : Fin 29 → ℚ) : Fin 29 → ℚ := fun j => -(r j)

/-- Dot product of a coefficient row with a flux vector. -/
def dot (r x : Fin 29 → ℚ) : ℚ := Finset.univ.sum (fun j => r j * x j)

/-- The 29×29 identity matrix `numpy.eye(29)`. -/
def eye : Fin 29 → Fin 29 → ℚ := fun i j => if i = j then 1 else 0

/-- One entry of the `Boundary_dict` parameter, e.g. `"ub8": 50` becomes
`⟨"ub", 8, 50⟩`: the source splits the key as `Polarity_Id[:2]` and
`int(Polarity_Id[2:])`.  The dict is embedded as a list of such entries in
dictionary iteration order. -/
structure BEntry where
  dirTok : String
  fluxId : Nat
  value : ℚ
  deriving DecidableEq

/-- One loop iteration of `populate_boundary_inequalities`: an "lb" entry
yields a −1 row with negated bound, a "ub" entry a +1 row with the bound,
and any other token prints "wrong boundary" and falls through, appending the
untouched all-zero row together with the unmodified bound value. -/
def popRow (e : BEntry) : (Fin 29 → ℚ) × ℚ :=
  if e.dirTok = "lb" then (unitRow e.fluxId (-1), -e.value)
  else if e.dirTok = "ub" then (unitRow e.fluxId 1, e.value)
  else (zeroVec, e.value)

/-- Embedding of `populate_boundary_inequalities`: `none` models the
`return None, None` taken on an empty `Boundary_dict`; otherwise the stacked
coefficient rows and bound column. -/
def populate_boundary_inequalities (Boundary_dict : List BEntry) :
    Option (List (Fin 29 → ℚ) × List ℚ) :=
  if Boundary_dict = [] then none
  else some (Boundary_dict.map (fun e => (popRow e).1),
             Boundary_dict.map (fun e => (popRow e).2))

/-- The 12 base inequality rows of `quadprog_adjust` (lines 102-124), already
negated by the final `Aineq = -1 * Aineq` line.  Row 5 is populated only when
`activatePPP` holds, i.e. when lactate+glutamate+acetate+citrate+pyruvate
ratios sum to at least 0.5. -/
def AineqBase (activatePPP : Bool) : List (Fin 29 → ℚ) :=
  ([ rowOf [(1,1),(2,-1),(10,-1)],
     rowOf [(2,1),(3,-1),(16,2)],
     rowOf [(3,1),(4,1),(5,-1),(14,1),(25,1)],
     rowOf [(5,1),(6,-1)],
     if activatePPP then rowOf [(6,1),(7,-1),(28,-1)] else zeroVec,
     rowOf [(7,1),(8,-1),(25,1),(27,-1),(29,1)],
     rowOf [(8,1),(9,-1),(17,-1),(24,-1),(26,-1)],
     rowOf [(13,1),(14,-1)],
     rowOf [(16,1),(15,-1)],
     rowOf [(19,1),(20,-1)],
     rowOf [(23,1),(17,-1),(28,1)],
     rowOf [(21,-1),(22,1)] ]).map negRow

/-- The looked-up substrate ratios, in the source's access order.  Field
names follow `Substrate2Index`: lac=10, glu=5, ace=13, cit=6, pyr=11, fru=2,
glc=1, gal=3, gly=12, gct=4 (gluconate), xyl=7, mal=9, suc=8. -/
structure SubVals where
  lac : ℚ
  glu : ℚ
  ace : ℚ
  cit : ℚ
  pyr : ℚ
  fru : ℚ
  glc : ℚ
  gal : ℚ
  gly : ℚ
  gct : ℚ
  xyl : ℚ
  mal : ℚ
  suc : ℚ
  deriving DecidableEq

/-- All substrate-dictionary lookups performed by `quadprog_adjust`, in
source order (row-5 condition, then bineq, then beq); the first missing key
raises, exactly as the Python `KeyError` would.  Substrate 14 (NaHCO3) is
never looked up by the source. -/
def getSubs (d : Dict) : Except FluxErr SubVals :=
  (subGet d 10).bind fun lac =>
  (subGet d 5).bind fun glu =>
  (subGet d 13).bind fun ace =>
  (subGet d 6).bind fun cit =>
  (subGet d 11).bind fun pyr =>
  (subGet d 2).bind fun fru =>
  (subGet d 1).bind fun glc =>
  (subGet d 3).bind fun gal =>
  (subGet d 12).bind fun gly =>
  (subGet d 4).bind fun gct =>
  (subGet d 7).bind fun xyl =>
  (subGet d 9).bind fun mal =>
  (subGet d 8).bind fun suc =>
  Except.ok ⟨lac, glu, ace, cit, pyr, fru, glc, gal, gly, gct, xyl, mal, suc⟩

/-- The flux-dictionary reads `[Fluxes[i] for i in range(1, 29+1)]`: the
comprehension raises `KeyError` at the first missing key; on success the
values form the predicted 29-vector (flux id i at index i−1). -/
def getFluxes (f : Dict) : Except FluxErr (Fin 29 → ℚ) :=
  match (List.range 29).find? (fun i => (f (i + 1)).isNone) with
  | some i => Except.error (FluxErr.keyErrorFlux (i + 1))
  | none => Except.ok (fun j => (f ((j : Nat) + 1)).getD 0)

/-- The base inequality right-hand sides `bineq` (rows 1..12): rows 2, 6, 10
carry 100× the fructose, pyruvate and glutamate ratios, the rest are zero. -/
def bineqBase (v : SubVals) : List ℚ :=
  [0, 100 * v.fru, 0, 0, 0, 100 * v.pyr, 0, 0, 0, 100 * v.glu, 0, 0]

/-- The 10 equality rows `Aeq` of `quadprog_adjust` (lines 148-159). -/
def AeqRows : List (Fin 29 → ℚ) :=
  [ rowOf [(1,1)],
    rowOf [(3,1),(4,-1)],
    rowOf [(11,1),(12,-1),(13,-1)],
    rowOf [(14,1),(16,-1)],
    rowOf [(10,1),(11,-1),(25,-1)],
    rowOf [(18,1),(17,-1)],
    rowOf [(15,1),(12,-1),(14,1)],
    rowOf [(24,1),(18,-1),(19,1)],
    rowOf [(22,-1),(23,1),(24,-1),(29,1)],
    rowOf [(20,1),(24,1),(21,-1)] ]

/-- The equality right-hand sides `beq` (lines 163-172). -/
def beqOf (v : SubVals) : List ℚ :=
  [100 * (v.glc + v.gal), -100 * v.gly, 0, 0, -100 * v.gct,
   100 * v.cit, 100 * v.xyl, 0, 100 * v.mal, -100 * v.suc]

/-- The QP data handed to the solver: `A_ineq x ≤ b_ineq`, `A_eq x = b_eq`,
objective ½xᵀPx + qᵀx. -/
structure QPData where
  Aineq : List (Fin 29 → ℚ)
  bineq : List ℚ
  Aeq : List (Fin 29 → ℚ)
  beq : List ℚ
  P : Fin 29 → Fin 29 → ℚ
  q : Fin 29 → ℚ

/-- Pure assembly of the QP from the already-looked-up values: base rows plus
stacked boundary rows; objective `numpy.eye(29)` with `q = -predicted` when
no label scalers are given, else the elementwise square of `diag(scale)` with
`q[i] = -(scale_i^2 * predicted_i)` (lines 174-188). -/
def mkQP (v : SubVals) (fl : Fin 29 → ℚ) (Boundary_dict : List BEntry)
    (Label_scalers : Option (Fin 29 → ℚ)) : QPData :=
  let bnd := populate_boundary_inequalities Boundary_dict
  let activatePPP : Bool := decide (v.lac + v.glu + v.ace + v.cit + v.pyr ≥ 1/2)
  { Aineq := AineqBase activatePPP ++ (match bnd with | some p => p.1 | none => [])
  , bineq := bineqBase v ++ (match bnd with | some p => p.2 | none => [])
  , Aeq := AeqRows
  , beq := beqOf v
  , P := match Label_scalers with
         | none => eye
         | some sc => fun i j => (if i = j then sc i else 0) ^ 2
  , q := match Label_scalers with
         | none => fun j => -(fl j)
         | some sc => fun j => -(sc j ^ 2 * fl j) }

/-- Embedding of `quadprog_adjust` up to (but not including) the external
solver call: all dictionary lookups in source order, then the assembled QP. -/
def buildQP (Substrates Fluxes : Dict) (Boundary_dict : List BEntry)
    (Label_scalers : Option (Fin 29 → ℚ)) : Except FluxErr QPData :=
  (getSubs Substrates).bind fun v =>
  (getFluxes Fluxes).bind fun fl =>
  Except.ok (mkQP v fl Boundary_dict Label_scalers)

/-- A point satisfies the constraint system when every equality row holds
with equality and every inequality row with ≤. -/
def satisfies (qp : QPData) (x : Fin 29 → ℚ) : Prop :=
  (∀ i, i < qp.Aeq.length → dot (qp.Aeq.getD i zeroVec) x = qp.beq.getD i 0) ∧
  (∀ i, i < qp.Aineq.length → dot (qp.Aineq.getD i zeroVec) x ≤ qp.bineq.getD i 0)

instance (qp : QPData) (x : Fin 29 → ℚ) : Decidable (satisfies qp x) := by
  unfold satisfies; infer_instance

/-- Point update of a flux vector, for the `Influxes[9] = ...` assignments. -/
def setIdx (f : Fin 29 → ℚ) (m : Fin 29) (c : ℚ) : Fin 29 → ℚ :=
  fun j => if j = m then c else f j

/-- Embedding of `rule_adjust` (lines 395-419): whenever the acetate ratio is
nonzero, flux 9 (index 8) is overwritten with −100×acetate; whenever the
lactate ratio is nonzero, flux 27 (index 26) is overwritten with
−100×lactate; nothing else is touched.  The substrate reads can raise
`KeyError` as in the source. -/
def rule_adjust (Influxes : Fin 29 → ℚ) (Substrates : Dict) :
    Except FluxErr (Fin 29 → ℚ) :=
  (subGet Substrates 13).bind fun ace =>
  let I1 := if ace ≠ 0 then setIdx Influxes 8 (-100 * ace) else Influxes
  (subGet Substrates 10).bind fun lac =>
  let I2 := if lac ≠ 0 then setIdx I1 26 (-100 * lac) else I1
  Except.ok I2

/-- Modelled from the spec: the contract of the external QPSolver capability
(section 4.4; the concrete solver, cvxopt, is not part of src/).  A
conforming solver reports `InfeasibleConstraints` when no point satisfies the
constraint system, and any point it does return satisfies the system. -/
def SolverContract (solve : QPData → Except FluxErr (Fin 29 → ℚ)) : Prop :=
  (∀ qp, (∀ x, ¬ satisfies qp x) → solve qp = Except.error FluxErr.infeasible) ∧
  (∀ qp x, solve qp = Except.ok x → satisfies qp x)

/-- The orchestration of `predict` (lines 484-485): `quadprog_adjust` (split
here into `buildQP` plus an abstract solver) followed by `rule_adjust`; any
failure propagates and no flux vector is produced. -/
def reconcile (solve : QPData → Except FluxErr (Fin 29 → ℚ))
    (Substrates Fluxes : Dict) (Boundary_dict : List BEntry)
    (Label_scalers : Option (Fin 29 → ℚ)) : Except FluxErr (Fin 29 → ℚ) :=
  (buildQP Substrates Fluxes Boundary_dict Label_scalers).bind fun qp =>
  (solve qp).bind fun x =>
  rule_adjust x Substrates

/-- The canonical boundary feature names, `itertools.product(["lb","ub"],
map(str, range(1,30)))` joined: lb1..lb29 then ub1..ub29. -/
def Feature_names : List String :=
  (List.product ["lb", "ub"] ((List.range 29).map (fun i => toString (i + 1)))).map
    (fun p => p.1 ++ p.2)

/-- Insertion into a string-keyed map, for `Features[name] = value`. -/
def updateMap (f : String → Option ℚ) (k : String) (v : ℚ) : String → Option ℚ :=
  fun n => if n = k then some v else f n

/-- Embedding of `process_boundaries` (lines 295-340).  The request is the
user's parsed form values: `req name = some v` when the user supplied a
nonempty value for that field.  After collecting the canonical lb/ub fields,
a zero lower bound is forced onto flux 9 when the acetate ratio is 0 and onto
flux 27 when the lactate ratio is 0, overwriting any user-supplied value. -/
def process_boundaries (req : String → Option ℚ) (Substrates : Dict) :
    Except FluxErr (String → Option ℚ) :=
  let Features : String → Option ℚ :=
    fun name => if name ∈ Feature_names then req name else none
  (subGet Substrates 13).bind fun ace =>
  let F1 := if ace = 0 then updateMap Features "lb9" 0 else Features
  (subGet Substrates 10).bind fun lac =>
  let F2 := if lac = 0 then updateMap F1 "lb27" 0 else F1
  Except.ok F2

/-- The documented 29-value predicted-flux fixture from the `quadprog_adjust`
docstring (line 72). -/
def fixtureVals : List ℚ :=
  [100, -2.7159, 15.2254, 17.7016, 110.9973, 91.8578, 137.7961, 91.1558,
   -0.7373, 94.1518, 24.1126, 21.231, 2.8816, 11.0324, 10.1986, 11.0324,
   79.4203, 79.4203, 67.9442, 67.8806, 79.3567, 79.3567, 64.0876, 11.4761,
   70.0392, -1.2424, 0.0059, 23.2159, 26.7451]

/-- The fixture as a flux dictionary with keys 1..29. -/
def fluxFixture : Dict :=
  fun k => if 1 ≤ k ∧ k ≤ 29 then some (fixtureVals.getD (k - 1) 0) else none

/-- Substrate map with glucose ratio 1 and all other ratios 0 (docstring
example, line 71). -/
def subsGlucoseOnly : Dict :=
  fun k => if 1 ≤ k ∧ k ≤ 14 then some (if k = 1 then 1 else 0) else none

/-- Substrate map with lactate ratio 1 and all other ratios 0. -/
def subsLactateOnly : Dict :=
  fun k => if 1 ≤ k ∧ k ≤ 14 then some (if k = 10 then 1 else 0) else none

/-- Substrate map with acetate ratio 3/10, lactate ratio 1/5, rest 0. -/
def subsAceLac : Dict :=
  fun k => if 1 ≤ k ∧ k ≤ 14 then
    some (if k = 13 then 3/10 else if k = 10 then 1/5 else 0) else none

/-- Substrate map with keys 1..13 only: index 14 (NaHCO3) is absent. -/
def subsNo14 : Dict :=
  fun k => if 1 ≤ k ∧ k ≤ 13 then some (if k = 1 then 1 else 0) else none

/-- Substrate map with key 5 (glutamate) absent and the rest as in the
glucose-only example. -/
def subsNo5 : Dict :=
  fun k => if k = 5 then none else subsGlucoseOnly k

/-- Extract the QP from a successful build (dummy data on the error side). -/
def qpOfOk (r : Except FluxErr QPData) : QPData :=
  match r with
  | Except.ok qp => qp
  | Except.error _ => ⟨[], [], [], [], eye, zeroVec⟩

/-- Extract the flux vector from a successful step. -/
def vecOfOk (r : Except FluxErr (Fin 29 → ℚ)) : Fin 29 → ℚ :=
  match r with
  | Except.ok x => x
  | Except.error _ => zeroVec

/-- Extract the feature map from a successful `process_boundaries`. -/
def mapOfOk (r : Except FluxErr (String → Option ℚ)) : String → Option ℚ :=
  match r with
  | Except.ok F => F
  | Except.error _ => fun _ => none

/-- The QP built for the infeasibility example: glucose-only substrates,
fixture prediction, user upper bound of 50 on flux 1. -/
def qpInfeas : QPData :=
  qpOfOk (buildQP subsGlucoseOnly fluxFixture [⟨"ub", 1, 50⟩] none)

/-- The QP built for the end-to-end example: glucose-only substrates, fixture
prediction, empty boundary request. -/
def qpGlucose : QPData :=
  qpOfOk (buildQP subsGlucoseOnly fluxFixture [] none)

/-- The QP built for a two-entry boundary request (one ub, one lb). -/
def qpTwoBounds : QPData :=
  qpOfOk (buildQP subsGlucoseOnly fluxFixture [⟨"ub", 3, 5⟩, ⟨"lb", 7, 2⟩] none)

/-- A degenerate but contract-conforming solver used to witness theorems that
quantify over conforming solvers. -/
def solveStub : QPData → Except FluxErr (Fin 29 → ℚ) :=
  fun _ => Except.error FluxErr.infeasible

/-- The feasible point x₁ = 100, all other coordinates 0, used to witness
satisfiability of the glucose-only base system. -/
def xStar : Fin 29 → ℚ := fun j => if (j : Nat) = 0 then 100 else 0

/-- The QP built for lactate-only substrates (five-ratio sum 1 ≥ 0.5). -/
def qpLactate : QPData :=
  qpOfOk (buildQP subsLactateOnly fluxFixture [] none)

/-- The fixture as a 29-vector (flux id i at index i−1). -/
def predFix : Fin 29 → ℚ := fun j => fixtureVals.getD (j : Nat) 0

/-- The QP built with the constant label scaler 1. -/
def qpGlucoseScaled : QPData :=
  qpOfOk (buildQP subsGlucoseOnly fluxFixture [] (some (fun _ => 1)))

/-! Helper lemmas: inversion of the monadic pipeline and dot-product facts. -/

theorem ebind_ok {α β : Type} (a : α) (g : α → Except FluxErr β) :
    (Except.ok a : Except FluxErr α).bind g = g a := rfl

theorem ebind_err {α β : Type} (e : FluxErr) (g : α → Except FluxErr β) :
    (Except.error e : Except FluxErr α).bind g = (Except.error e : Except FluxErr β) := rfl

theorem subGet_none {d : Dict} {k : Nat} (h : d k = none) :
    subGet d k = Except.error (FluxErr.keyErrorSubstrate k) := by
  unfold subGet; rw [h]

theorem subGet_some {d : Dict} {k : Nat} {a : ℚ} (h : d k = some a) :
    subGet d k = Except.ok a := by
  unfold subGet; rw [h]

theorem getSubs_ok {d : Dict} {v : SubVals} (h : getSubs d = Except.ok v) :
    d 10 = some v.lac ∧ d 5 = some v.glu ∧ d 13 = some v.ace ∧ d 6 = some v.cit ∧
    d 11 = some v.pyr ∧ d 2 = some v.fru ∧ d 1 = some v.glc ∧ d 3 = some v.gal ∧
    d 12 = some v.gly ∧ d 4 = some v.gct ∧ d 7 = some v.xyl ∧ d 9 = some v.mal ∧
    d 8 = some v.suc := by
  unfold getSubs at h
  cases h10 : d 10 with
  | none => rw [subGet_none h10, ebind_err] at h; cases h
  | some lac =>
  rw [subGet_some h10, ebind_ok] at h
  cases h5 : d 5 with
  | none => rw [subGet_none h5, ebind_err] at h; cases h
  | some glu =>
  rw [subGet_some h5, ebind_ok] at h
  cases h13 : d 13 with
  | none => rw [subGet_none h13, ebind_err] at h; cases h
  | some ace =>
  rw [subGet_some h13, ebind_ok] at h
  cases h6 : d 6 with
  | none => rw [subGet_none h6, ebind_err] at h; cases h
  | some cit =>
  rw [subGet_some h6, ebind_ok] at h
  cases h11 : d 11 with
  | none => rw [subGet_none h11, ebind_err] at h; cases h
  | some pyr =>
  rw [subGet_some h11, ebind_ok] at h
  cases h2 : d 2 with
  | none => rw [subGet_none h2, ebind_err] at h; cases h
  | some fru =>
  rw [subGet_some h2, ebind_ok] at h
  cases h1 : d 1 with
  | none => rw [subGet_none h1, ebind_err] at h; cases h
  | some glc =>
  rw [subGet_some h1, ebind_ok] at h
  cases h3 : d 3 with
  | none => rw [subGet_none h3, ebind_err] at h; cases h
  | some gal =>
  rw [subGet_some h3, ebind_ok] at h
  cases h12 : d 12 with
  | none => rw [subGet_none h12, ebind_err] at h; cases h
  | some gly =>
  rw [subGet_some h12, ebind_ok] at h
  cases h4 : d 4 with
  | none => rw [subGet_none h4, ebind_err] at h; cases h
  | some gct =>
  rw [subGet_some h4, ebind_ok] at h
  cases h7 : d 7 with
  | none => rw [subGet_none h7, ebind_err] at h; cases h
  | some xyl =>
  rw [subGet_some h7, ebind_ok] at h
  cases h9 : d 9 with
  | none => rw [subGet_none h9, ebind_err] at h; cases h
  | some mal =>
  rw [subGet_some h9, ebind_ok] at h
  cases h8 : d 8 with
  | none => rw [subGet_none h8, ebind_err] at h; cases h
  | some suc =>
  rw [subGet_some h8, ebind_ok] at h
  cases h
  exact ⟨rfl, rfl, rfl, rfl, rfl, rfl, rfl, rfl, rfl, rfl, rfl, rfl, rfl⟩

theorem getFluxes_ok {f : Dict} {fl : Fin 29 → ℚ} (h : getFluxes f = Except.ok fl) :
    (∀ i, i < 29 → (f (i + 1)).isSome = true) ∧
    fl = fun j : Fin 29 => (f ((j : Nat) + 1)).getD 0 := by
  unfold getFluxes at h
  cases hfind : (List.range 29).find? (fun i => (f (i + 1)).isNone) with
  | some i => rw [hfind] at h; cases h
  | none =>
    rw [hfind] at h
    cases h
    refine ⟨fun i hi => ?_, rfl⟩
    have hni := List.find?_eq_none.mp hfind i (List.mem_range.mpr hi)
    cases hfe : f (i + 1) <;> simp_all

theorem buildQP_ok {d f : Dict} {b : List BEntry} {s : Option (Fin 29 → ℚ)}
    {qp : QPData} (h : buildQP d f b s = Except.ok qp) :
    ∃ v fl, getSubs d = Except.ok v ∧ getFluxes f = Except.ok fl ∧
      qp = mkQP v fl b s := by
  unfold buildQP at h
  cases hv : getSubs d with
  | error e => rw [hv, ebind_err] at h; cases h
  | ok v =>
    rw [hv, ebind_ok] at h
    cases hf : getFluxes f with
    | error e => rw [hf, ebind_err] at h; cases h
    | ok fl =>
      rw [hf, ebind_ok] at h
      cases h
      exact ⟨v, fl, rfl, rfl, rfl⟩

theorem dot_zeroVec (x : Fin 29 → ℚ) : dot zeroVec x = 0 := by
  unfold dot zeroVec
  simp

theorem dot_singleRow (m : Fin 29) (c : ℚ) (x : Fin 29 → ℚ) :
    dot (singleRow m c) x = c * x m := by
  unfold dot singleRow
  rw [Finset.sum_eq_single m]
  · simp
  · intro b _ hb
    simp [hb]
  · simp

theorem dot_xStar (r : Fin 29 → ℚ) : dot r xStar = r 0 * 100 := by
  unfold dot xStar
  rw [Finset.sum_eq_single (0 : Fin 29)]
  · simp
  · intro b _ hb
    have hb0 : ¬ ((b : Nat) = 0) := fun hv => hb (Fin.ext hv)
    simp [hb0]
  · simp

theorem AineqBase_length (c : Bool) : (AineqBase c).length = 12 := by
  cases c <;> rfl

theorem AeqRows_length : AeqRows.length = 10 := rfl

/-! Claim theorems. -/

/-- C1: for every solved flux vector and substrate map (with the acetate and
lactate keys present, holding ratios `ace` and `lac`), `rule_adjust` sets
flux 9 (index 8) to exactly −100·ace whenever ace ≠ 0 and flux 27 (index 26)
to exactly −100·lac whenever lac ≠ 0, regardless of the value the QP
produced there; every other flux entry is returned unchanged, and fluxes 9
and 27 are also unchanged when the respective ratio is zero. -/
theorem C1_rule_adjust_overrides (I : Fin 29 → ℚ) (d : Dict) (ace lac : ℚ)
    (hA : d 13 = some ace) (hL : d 10 = some lac) :
    ∃ J, rule_adjust I d = Except.ok J ∧
      (ace ≠ 0 → J 8 = -100 * ace) ∧
      (lac ≠ 0 → J 26 = -100 * lac) ∧
      (∀ j : Fin 29, j ≠ 8 → j ≠ 26 → J j = I j) ∧
      (ace = 0 → J 8 = I 8) ∧
      (lac = 0 → J 26 = I 26) := by
  unfold rule_adjust
  rw [subGet_some hA, ebind_ok, subGet_some hL, ebind_ok]
  have h826 : ((8 : Fin 29) = 26) = False := by simp
  refine ⟨_, rfl, ?_, ?_, ?_, ?_, ?_⟩
  · intro ha
    by_cases hl : lac = 0 <;> simp [setIdx, ha, hl, h826]
  · intro hl
    simp [setIdx, hl]
  · intro j hj8 hj26
    by_cases ha : ace = 0 <;> by_cases hl : lac = 0 <;>
      simp [setIdx, ha, hl, hj8, hj26]
  · intro ha
    by_cases hl : lac = 0 <;> simp [setIdx, ha, hl, h826]
  · intro hl
    by_cases ha : ace = 0 <;> simp [setIdx, ha, hl]

/-- C1 witness: with acetate ratio 3/10 and lactate ratio 1/5 and the
constant predicted vector 5, the adjusted vector holds −30 at flux 9, −20 at
flux 27, and 5 elsewhere (checked at flux 1). -/
theorem C1_rule_adjust_overrides_witness :
    vecOfOk (rule_adjust (fun _ => 5) subsAceLac) 8 = -30 ∧
    vecOfOk (rule_adjust (fun _ => 5) subsAceLac) 26 = -20 ∧
    vecOfOk (rule_adjust (fun _ => 5) subsAceLac) 0 = 5 := by
  obtain ⟨J, hJ, h9, h27, hoth, -, -⟩ :=
    C1_rule_adjust_overrides (fun _ => 5) subsAceLac (3/10) (1/5) rfl rfl
  rw [hJ]
  refine ⟨?_, ?_, ?_⟩
  · show J 8 = -30
    rw [h9 (by norm_num)]
    norm_num
  · show J 26 = -20
    rw [h27 (by norm_num)]
    norm_num
  · show J 0 = 5
    exact hoth 0 (by decide) (by decide)

/-- C2 (evaluation of the code at the failing input): on a boundary entry
whose direction token "xx" is neither "lb" nor "ub",
`populate_boundary_inequalities` does not fail; it returns normally with an
all-zero coefficient row and the raw bound value 7 as right-hand side, a row
that every flux vector satisfies (0 ≤ 7) — the entry is turned into a
trivially satisfiable row instead of surfacing an error. -/
theorem C2_unknown_token_not_rejected :
    populate_boundary_inequalities [⟨"xx", 3, 7⟩] = some ([zeroVec], [7]) ∧
    (∀ x : Fin 29 → ℚ, dot zeroVec x ≤ 7) := by
  refine ⟨rfl, fun x => ?_⟩
  rw [dot_zeroVec]
  norm_num

/-- C10: after `process_boundaries` assembles the boundary map, a zero lower
bound on flux 9 is present whenever the acetate ratio is 0 and a zero lower
bound on flux 27 whenever the lactate ratio is 0, overwriting any
user-supplied value; when the respective ratio is nonzero the mechanism adds
nothing (the user's own entry, if any, passes through).  A zero lower bound
on flux 9 is exactly the nonnegativity constraint 0 ≤ x₉, and `rule_adjust`
overrides flux 9 (resp. 27) exactly when the ratio is nonzero — so, absent
user bounds on those fluxes, nonnegativity is imposed exactly when the
post-solve override does not fire. -/
theorem C10_forced_lower_bounds (req : String → Option ℚ) (d : Dict)
    (ace lac : ℚ) (hA : d 13 = some ace) (hL : d 10 = some lac) :
    ∃ F, process_boundaries req d = Except.ok F ∧
      (ace = 0 → F "lb9" = some 0) ∧
      (lac = 0 → F "lb27" = some 0) ∧
      (ace ≠ 0 → F "lb9" = req "lb9") ∧
      (lac ≠ 0 → F "lb27" = req "lb27") ∧
      (∀ x : Fin 29 → ℚ,
        (dot (popRow ⟨"lb", 9, 0⟩).1 x ≤ (popRow ⟨"lb", 9, 0⟩).2 ↔ 0 ≤ x 8)) ∧
      (∀ I : Fin 29 → ℚ, ∃ J, rule_adjust I d = Except.ok J ∧
        (ace = 0 → J 8 = I 8) ∧ (ace ≠ 0 → J 8 = -100 * ace) ∧
        (lac = 0 → J 26 = I 26) ∧ (lac ≠ 0 → J 26 = -100 * lac)) := by
  have hs1 : ("lb9" : String) ≠ "lb27" := by decide
  have hm9 : "lb9" ∈ Feature_names := by decide
  have hm27 : "lb27" ∈ Feature_names := by decide
  unfold process_boundaries
  rw [subGet_some hA, ebind_ok, subGet_some hL, ebind_ok]
  refine ⟨_, rfl, ?_, ?_, ?_, ?_, ?_, ?_⟩
  · intro ha
    by_cases hl : lac = 0 <;> simp [updateMap, ha, hl, hs1]
  · intro hl
    simp [updateMap, hl]
  · intro ha
    by_cases hl : lac = 0 <;> simp [updateMap, ha, hl, hs1, hm9]
  · intro hl
    by_cases ha : ace = 0 <;> simp [updateMap, ha, hl, hm27]
  · intro x
    have hrow : (popRow ⟨"lb", 9, 0⟩).1 = singleRow 8 (-1) := by decide
    have hval : (popRow ⟨"lb", 9, 0⟩).2 = -0 := rfl
    rw [hrow, hval, dot_singleRow]
    constructor
    · intro h; linarith
    · intro h; linarith
  · intro I
    obtain ⟨J, hJ, h9, h27, _, hz9, hz27⟩ :=
      C1_rule_adjust_overrides I d ace lac hA hL
    exact ⟨J, hJ, hz9, h9, hz27, h27⟩

/-- C10 witness: with no user-supplied bounds and the glucose-only substrate
map (acetate and lactate ratios 0), the assembled boundary map holds a zero
lower bound on fluxes 9 and 27. -/
theorem C10_forced_lower_bounds_witness :
    mapOfOk (process_boundaries (fun _ => none) subsGlucoseOnly) "lb9" = some 0 ∧
    mapOfOk (process_boundaries (fun _ => none) subsGlucoseOnly) "lb27" = some 0 := by
  obtain ⟨F, hF, h9, h27, -, -, -, -⟩ :=
    C10_forced_lower_bounds (fun _ => none) subsGlucoseOnly 0 0 rfl rfl
  rw [hF]
  exact ⟨h9 rfl, h27 rfl⟩

theorem getD_map_lt {α β : Type} (g : α → β) (l : List α) (i : Nat)
    (h : i < l.length) (d0 : α) (d1 : β) :
    (l.map g).getD i d1 = g (l.getD i d0) := by
  rw [List.getD_eq_getElem _ _ (by simpa using h), List.getElem_map,
      List.getD_eq_getElem _ _ h]

theorem boundary_rows_eq (b : List BEntry) :
    (match populate_boundary_inequalities b with
      | some p => p.1
      | none => ([] : List (Fin 29 → ℚ))) = b.map (fun e => (popRow e).1) := by
  unfold populate_boundary_inequalities
  by_cases hb : b = [] <;> simp [hb]

theorem boundary_rhs_eq (b : List BEntry) :
    (match populate_boundary_inequalities b with
      | some p => p.2
      | none => ([] : List ℚ)) = b.map (fun e => (popRow e).2) := by
  unfold populate_boundary_inequalities
  by_cases hb : b = [] <;> simp [hb]

/-- C3: inequality row 5 (index 4) of the built system carries its fixed
nonzero coefficients — at 1-indexed variables 6, 7 and 28, i.e. function
indices 5, 6 and 27 — exactly when the lactate+glutamate+acetate+citrate+
pyruvate ratio sum is at least 1/2; when the sum is below 1/2 the row is the
all-zero vector and its right-hand side is 0. -/
theorem C3_row5_activation (d f : Dict) (b : List BEntry) (qp : QPData)
    (lac glu ace cit pyr : ℚ)
    (h10 : d 10 = some lac) (h5 : d 5 = some glu) (h13 : d 13 = some ace)
    (h6 : d 6 = some cit) (h11 : d 11 = some pyr)
    (hqp : buildQP d f b none = Except.ok qp) :
    (lac + glu + ace + cit + pyr ≥ 1/2 →
       qp.Aineq.getD 4 zeroVec = negRow (rowOf [(6,1),(7,-1),(28,-1)]) ∧
       (∀ j : Fin 29, qp.Aineq.getD 4 zeroVec j ≠ 0 ↔
          ((j : Nat) = 5 ∨ (j : Nat) = 6 ∨ (j : Nat) = 27))) ∧
    (lac + glu + ace + cit + pyr < 1/2 →
       qp.Aineq.getD 4 zeroVec = zeroVec ∧ qp.bineq.getD 4 0 = 0) := by
  obtain ⟨v, fl, hv, hfl, rfl⟩ := buildQP_ok hqp
  obtain ⟨g10, g5, g13, g6, g11, -, -, -, -, -, -, -, -⟩ := getSubs_ok hv
  rw [h10] at g10; rw [h5] at g5; rw [h13] at g13; rw [h6] at g6; rw [h11] at g11
  obtain rfl : lac = v.lac := Option.some.inj g10
  obtain rfl : glu = v.glu := Option.some.inj g5
  obtain rfl : ace = v.ace := Option.some.inj g13
  obtain rfl : cit = v.cit := Option.some.inj g6
  obtain rfl : pyr = v.pyr := Option.some.inj g11
  have hAineq : (mkQP v fl b none).Aineq =
      AineqBase (decide (v.lac + v.glu + v.ace + v.cit + v.pyr ≥ 1/2)) ++
        b.map (fun e => (popRow e).1) := by
    simp only [mkQP]
    rw [boundary_rows_eq]
  have hbineq : (mkQP v fl b none).bineq =
      bineqBase v ++ b.map (fun e => (popRow e).2) := by
    simp only [mkQP]
    rw [boundary_rhs_eq]
  constructor
  · intro hge
    rw [hAineq, decide_eq_true hge,
        List.getD_append _ _ _ _ (by rw [AineqBase_length]; omega)]
    refine ⟨rfl, fun j => ?_⟩
    have hrow : (AineqBase true).getD 4 zeroVec =
        negRow (rowOf [(6,1),(7,-1),(28,-1)]) := rfl
    rw [hrow]
    revert j
    decide
  · intro hlt
    have hdec : decide (v.lac + v.glu + v.ace + v.cit + v.pyr ≥ 1/2) = false :=
      decide_eq_false (not_le.mpr hlt)
    constructor
    · rw [hAineq, hdec,
          List.getD_append _ _ _ _ (by rw [AineqBase_length]; omega)]
      have hrow : (AineqBase false).getD 4 zeroVec = negRow zeroVec := rfl
      rw [hrow]
      funext j
      simp [negRow, zeroVec]
    · rw [hbineq, List.getD_append _ _ _ _ (by norm_num [bineqBase])]
      rfl

/-- C3 witness: for the lactate-only substrate map the five-ratio sum is 1 ≥
1/2 and row 5 of the built inequality matrix carries its fixed nonzero
coefficients. -/
theorem C3_row5_activation_witness :
    ((1:ℚ) + 0 + 0 + 0 + 0 ≥ 1/2) ∧
    qpLactate.Aineq.getD 4 zeroVec = negRow (rowOf [(6,1),(7,-1),(28,-1)]) := by
  have hge : (1:ℚ) + 0 + 0 + 0 + 0 ≥ 1/2 := by norm_num
  have h := C3_row5_activation subsLactateOnly fluxFixture [] qpLactate
    1 0 0 0 0 rfl rfl rfl rfl rfl rfl
  exact ⟨hge, (h.1 hge).1⟩

/-- C4: the built inequality system always has 12 + n rows where n is the
number of boundary entries (so the empty request leaves exactly the 12 base
rows), and boundary entry i — an upper bound v on flux k — occupies row
12 + i with coefficient +1 at function index k−1 (zero elsewhere) and
right-hand side v, while a lower bound v on flux k yields coefficient −1 at
index k−1 and right-hand side −v. -/
theorem C4_boundary_rows (d f : Dict) (b : List BEntry) (s : Option (Fin 29 → ℚ))
    (qp : QPData) (hqp : buildQP d f b s = Except.ok qp) :
    qp.Aineq.length = 12 + b.length ∧ qp.bineq.length = 12 + b.length ∧
    (∀ i e, i < b.length → b.getD i ⟨"", 0, 0⟩ = e →
      (e.dirTok = "ub" →
        (∀ j : Fin 29, qp.Aineq.getD (12 + i) zeroVec j =
            if (j : Nat) = e.fluxId - 1 then 1 else 0) ∧
        qp.bineq.getD (12 + i) 0 = e.value) ∧
      (e.dirTok = "lb" →
        (∀ j : Fin 29, qp.Aineq.getD (12 + i) zeroVec j =
            if (j : Nat) = e.fluxId - 1 then -1 else 0) ∧
        qp.bineq.getD (12 + i) 0 = -e.value)) := by
  obtain ⟨v, fl, hv, hfl, rfl⟩ := buildQP_ok hqp
  have hAineq : (mkQP v fl b s).Aineq =
      AineqBase (decide (v.lac + v.glu + v.ace + v.cit + v.pyr ≥ 1/2)) ++
        b.map (fun e => (popRow e).1) := by
    simp only [mkQP]
    rw [boundary_rows_eq]
  have hbineq : (mkQP v fl b s).bineq =
      bineqBase v ++ b.map (fun e => (popRow e).2) := by
    simp only [mkQP]
    rw [boundary_rhs_eq]
  have hblen : (bineqBase v).length = 12 := rfl
  refine ⟨?_, ?_, ?_⟩
  · rw [hAineq, List.length_append, AineqBase_length, List.length_map]
  · rw [hbineq, List.length_append, hblen, List.length_map]
  · intro i e hi he
    have hrow : (mkQP v fl b s).Aineq.getD (12 + i) zeroVec = (popRow e).1 := by
      rw [hAineq,
          List.getD_append_right _ _ _ _ (by rw [AineqBase_length]; omega)]
      rw [AineqBase_length, show 12 + i - 12 = i by omega]
      rw [getD_map_lt _ _ _ (by omega) ⟨"", 0, 0⟩, he]
    have hrhs : (mkQP v fl b s).bineq.getD (12 + i) 0 = (popRow e).2 := by
      rw [hbineq, List.getD_append_right _ _ _ _ (by rw [hblen]; omega)]
      rw [hblen, show 12 + i - 12 = i by omega]
      rw [getD_map_lt _ _ _ (by omega) ⟨"", 0, 0⟩, he]
    constructor
    · intro hub
      have hlb : ¬ (e.dirTok = "lb") := by rw [hub]; decide
      refine ⟨fun j => ?_, ?_⟩
      · rw [hrow]
        simp [popRow, hub, hlb, unitRow]
      · rw [hrhs]
        simp [popRow, hub, hlb]
    · intro hlb
      refine ⟨fun j => ?_, ?_⟩
      · rw [hrow]
        simp [popRow, hlb, unitRow]
      · rw [hrhs]
        simp [popRow, hlb]

/-- C4 witness: for the two-entry boundary request [ub3 = 5, lb7 = 2] the
built system has 14 inequality rows, and the lb entry occupies row index 13
with coefficient −1 at function index 6 and right-hand side −2. -/
theorem C4_boundary_rows_witness :
    qpTwoBounds.Aineq.length = 14 ∧
    qpTwoBounds.Aineq.getD 13 zeroVec 6 = -1 ∧
    qpTwoBounds.bineq.getD 13 0 = -2 := by
  have h := C4_boundary_rows subsGlucoseOnly fluxFixture
    [⟨"ub", 3, 5⟩, ⟨"lb", 7, 2⟩] none qpTwoBounds rfl
  have hlb := (h.2.2 1 ⟨"lb", 7, 2⟩ (by norm_num) rfl).2 rfl
  have h13 : (13 : Nat) = 12 + 1 := rfl
  refine ⟨by rw [h.1]; rfl, ?_, ?_⟩
  · rw [h13, hlb.1 6]
    norm_num [show (((6 : Fin 29)) : Nat) = 6 from rfl]
  · rw [h13, hlb.2]

/-- C5: when all 29 predicted fluxes are present, the objective built without
label scalers is P = identity and q = −predicted; with per-flux positive
scale factors sᵢ it is P = diag(sᵢ²) (row i is the single-entry row sᵢ² at
column i) and q = −diag(sᵢ²)·predicted (each qᵢ the negated dot product of
the i-th diagonal row with the predicted vector). -/
theorem C5_objective (d f : Dict) (b : List BEntry) (pred : Fin 29 → ℚ)
    (hf : ∀ k : Fin 29, f ((k : Nat) + 1) = some (pred k)) :
    (∀ qp, buildQP d f b none = Except.ok qp →
       qp.P = eye ∧ qp.q = fun j => -(pred j)) ∧
    (∀ sc : Fin 29 → ℚ, (∀ i, 0 < sc i) →
       ∀ qp, buildQP d f b (some sc) = Except.ok qp →
         qp.P = (fun i => singleRow i (sc i ^ 2)) ∧
         qp.q = fun j => -(dot (singleRow j (sc j ^ 2)) pred)) := by
  constructor
  · intro qp hqp
    obtain ⟨v, fl, hv, hfl, rfl⟩ := buildQP_ok hqp
    obtain ⟨-, hfl2⟩ := getFluxes_ok hfl
    have hflpred : fl = pred := by
      rw [hfl2]
      funext j
      rw [hf j]
      rfl
    exact ⟨rfl, by rw [show (mkQP v fl b none).q = fun j => -(fl j) from rfl,
                       hflpred]⟩
  · intro sc hsc qp hqp
    obtain ⟨v, fl, hv, hfl, rfl⟩ := buildQP_ok hqp
    obtain ⟨-, hfl2⟩ := getFluxes_ok hfl
    have hflpred : fl = pred := by
      rw [hfl2]
      funext j
      rw [hf j]
      rfl
    constructor
    · show (fun i j => (if i = j then sc i else 0) ^ 2) =
        fun i => singleRow i (sc i ^ 2)
      funext i j
      by_cases hij : i = j
      · simp [singleRow, hij]
      · simp [singleRow, hij, Ne.symm hij, pow_two]
    · show (fun j => -(sc j ^ 2 * fl j)) =
        fun j => -(dot (singleRow j (sc j ^ 2)) pred)
      funext j
      rw [dot_singleRow, hflpred]

/-- C5 witness: for the fixture prediction the unscaled objective is the
identity with q = −predicted, and with constant scale factor 1 the scaled
objective has diagonal rows. -/
theorem C5_objective_witness :
    qpGlucose.P = eye ∧
    qpGlucose.q = (fun j => -(predFix j)) ∧
    qpGlucoseScaled.P = (fun i => singleRow i ((1 : ℚ) ^ 2)) ∧
    ((0 : ℚ) < 1) := by
  have hf : ∀ k : Fin 29, fluxFixture ((k : Nat) + 1) = some (predFix k) := by
    intro k
    fin_cases k <;> rfl
  have h := C5_objective subsGlucoseOnly fluxFixture [] predFix hf
  have h1 := h.1 qpGlucose rfl
  have h2 := h.2 (fun _ => 1) (fun _ => by norm_num) qpGlucoseScaled rfl
  exact ⟨h1.1, h1.2, h2.1, by norm_num⟩

/-- C6 (amended): for every request the equality system has exactly 10 rows
and the base inequality system (empty boundary request) exactly 12 rows,
each over 29 variables; the equality rows and the inequality rows other
than row 5 are literally fixed (hence have fixed sparsity), while
inequality row 5 is either its fixed populated form or the all-zero row
depending on the substrate ratios. -/
theorem C6_dimensions_and_sparsity (d f : Dict) (s : Option (Fin 29 → ℚ))
    (qp : QPData) (hqp : buildQP d f [] s = Except.ok qp) :
    qp.Aeq.length = 10 ∧ qp.beq.length = 10 ∧
    qp.Aineq.length = 12 ∧ qp.bineq.length = 12 ∧
    qp.Aeq = AeqRows ∧
    (∀ i, i < 12 → i ≠ 4 →
      qp.Aineq.getD i zeroVec = (AineqBase true).getD i zeroVec) ∧
    (qp.Aineq.getD 4 zeroVec = (AineqBase true).getD 4 zeroVec ∨
     qp.Aineq.getD 4 zeroVec = zeroVec) := by
  obtain ⟨v, fl, hv, hfl, rfl⟩ := buildQP_ok hqp
  have hAineq : (mkQP v fl [] s).Aineq =
      AineqBase (decide (v.lac + v.glu + v.ace + v.cit + v.pyr ≥ 1/2)) := by
    simp only [mkQP]
    rw [boundary_rows_eq]
    simp
  have hbineq : (mkQP v fl [] s).bineq = bineqBase v := by
    simp only [mkQP]
    rw [boundary_rhs_eq]
    simp
  refine ⟨rfl, rfl, ?_, ?_, rfl, ?_, ?_⟩
  · rw [hAineq, AineqBase_length]
  · rw [hbineq]; rfl
  · rw [hAineq]
    cases hc : decide (v.lac + v.glu + v.ace + v.cit + v.pyr ≥ 1/2)
    · decide
    · decide
  · rw [hAineq]
    cases hc : decide (v.lac + v.glu + v.ace + v.cit + v.pyr ≥ 1/2)
    · right
      have : (AineqBase false).getD 4 zeroVec = negRow zeroVec := rfl
      rw [this]
      funext j
      simp [negRow, zeroVec]
    · left; rfl

/-- C6 witness: the glucose-only instance has the stated dimensions. -/
theorem C6_dimensions_and_sparsity_witness :
    qpGlucose.Aeq.length = 10 ∧ qpGlucose.Aineq.length = 12 ∧
    qpGlucose.Aeq = AeqRows := by
  have h := C6_dimensions_and_sparsity subsGlucoseOnly fluxFixture none
    qpGlucose rfl
  exact ⟨h.1, h.2.2.1, h.2.2.2.2.1⟩

theorem qpGlucose_row5 : qpGlucose.Aineq.getD 4 zeroVec = zeroVec := by
  show (mkQP ⟨0, 0, 0, 0, 0, 0, 1, 0, 0, 0, 0, 0, 0⟩
    (fun j => (fluxFixture ((j : Nat) + 1)).getD 0) [] none).Aineq.getD 4
      zeroVec = zeroVec
  simp only [mkQP]
  rw [boundary_rows_eq]
  rw [decide_eq_false (by norm_num : ¬ ((0:ℚ) + 0 + 0 + 0 + 0 ≥ 1/2))]
  have : ((AineqBase false) ++ ([] : List BEntry).map
      (fun e => (popRow e).1)).getD 4 zeroVec = negRow zeroVec := rfl
  rw [this]
  funext j
  simp [negRow, zeroVec]

theorem qpLactate_row5 : qpLactate.Aineq.getD 4 zeroVec =
    negRow (rowOf [(6,1),(7,-1),(28,-1)]) := by
  show (mkQP ⟨1, 0, 0, 0, 0, 0, 0, 0, 0, 0, 0, 0, 0⟩
    (fun j => (fluxFixture ((j : Nat) + 1)).getD 0) [] none).Aineq.getD 4
      zeroVec = negRow (rowOf [(6,1),(7,-1),(28,-1)])
  simp only [mkQP]
  rw [boundary_rows_eq]
  rw [decide_eq_true (by norm_num : ((1:ℚ) + 0 + 0 + 0 + 0 ≥ 1/2))]
  rfl

/-- C6 counterexample: the sparsity pattern of the 12 base inequality rows is
not the same for every valid request — for the glucose-only substrate map
row 5 (index 4) is the all-zero row, while for the lactate-only substrate
map it is nonzero, so the pattern depends on the substrate ratios, not only
the right-hand sides. -/
theorem C6_fixed_sparsity_counterexample :
    buildQP subsGlucoseOnly fluxFixture [] none = Except.ok qpGlucose ∧
    buildQP subsLactateOnly fluxFixture [] none = Except.ok qpLactate ∧
    qpGlucose.Aineq.getD 4 zeroVec = zeroVec ∧
    qpLactate.Aineq.getD 4 zeroVec ≠ zeroVec := by
  refine ⟨rfl, rfl, qpGlucose_row5, ?_⟩
  rw [qpLactate_row5]
  intro hcontra
  have h5 := congrFun hcontra (5 : Fin 29)
  rw [show negRow (rowOf [(6,1),(7,-1),(28,-1)]) (5 : Fin 29) = -1 from rfl,
      show zeroVec (5 : Fin 29) = 0 from rfl] at h5
  norm_num at h5

/-- C9 (amended): building the QP fails (with a KeyError-style error) for
every substrate map missing one of the keys 1..13 and for every predicted
flux map missing one of the keys 1..29.  Substrate key 14 (NaHCO3) is never
read, so its absence alone does not cause a failure (see the
counterexample), and the flux keys are only read when the objective is
formed, after the constraint matrices are assembled. -/
theorem C9_missing_keys (d f : Dict) (b : List BEntry) (s : Option (Fin 29 → ℚ))
    (h : (∃ k, 1 ≤ k ∧ k ≤ 13 ∧ d k = none) ∨
         (∃ k, 1 ≤ k ∧ k ≤ 29 ∧ f k = none)) :
    (buildQP d f b s).isOk = false := by
  cases hq : buildQP d f b s with
  | error e => rfl
  | ok qp =>
    exfalso
    obtain ⟨v, fl, hv, hfl, -⟩ := buildQP_ok hq
    obtain ⟨g10, g5, g13, g6, g11, g2, g1, g3, g12, g4, g7, g9, g8⟩ :=
      getSubs_ok hv
    obtain ⟨hall, -⟩ := getFluxes_ok hfl
    cases h with
    | inl hsub =>
      obtain ⟨k, hk1, hk13, hknone⟩ := hsub
      interval_cases k <;> simp_all
    | inr hflux =>
      obtain ⟨k, hk1, hk29, hknone⟩ := hflux
      have hlt : k - 1 < 29 := by omega
      have := hall (k - 1) hlt
      rw [show k - 1 + 1 = k by omega, hknone] at this
      simp at this

/-- C9 witness: a substrate map missing key 5 (glutamate) makes the build
fail. -/
theorem C9_missing_keys_witness :
    (buildQP subsNo5 fluxFixture [] none).isOk = false :=
  C9_missing_keys subsNo5 fluxFixture [] none
    (Or.inl ⟨5, by norm_num, by norm_num, rfl⟩)

/-- C9 counterexample: the substrate map holding keys 1..13 but missing the
structurally required key 14 (NaHCO3) does not make reconciliation fail —
the QP build completes successfully, because `quadprog_adjust` never reads
substrate 14.  This refutes the claim that every substrate map missing one
of the required indices 1..14 fails fast. -/
theorem C9_missing_nahco3_counterexample :
    (buildQP subsNo14 fluxFixture [] none).isOk = true := by
  decide

theorem qpInfeas_infeasible (x : Fin 29 → ℚ) : ¬ satisfies qpInfeas x := by
  intro hx
  have h1 := hx.1 0 (by rw [show qpInfeas.Aeq.length = 10 from rfl]; norm_num)
  have h2 := hx.2 12 (by rw [show qpInfeas.Aineq.length = 13 from rfl]; norm_num)
  rw [show qpInfeas.Aeq.getD 0 zeroVec = singleRow 0 1 from by decide,
      show qpInfeas.beq.getD 0 0 = 100 * (1 + 0) from rfl,
      dot_singleRow, one_mul] at h1
  rw [show qpInfeas.Aineq.getD 12 zeroVec = singleRow 0 1 from by decide,
      show qpInfeas.bineq.getD 12 0 = 50 from rfl,
      dot_singleRow, one_mul] at h2
  rw [h1] at h2
  norm_num at h2

/-- C7: for glucose-only substrates, the fixture prediction and a user upper
bound of 50 on flux 1, the built constraint system is infeasible (no flux
vector satisfies it — the first equality row forces x₁ = 100 while the
boundary row forces x₁ ≤ 50), and for every solver meeting the
specification's QPSolver contract the orchestrated reconciliation reports
the InfeasibleConstraints failure and returns no flux vector. -/
theorem C7_infeasible_bound (solve : QPData → Except FluxErr (Fin 29 → ℚ))
    (hs : SolverContract solve) :
    (∀ x : Fin 29 → ℚ, ¬ satisfies qpInfeas x) ∧
    reconcile solve subsGlucoseOnly fluxFixture [⟨"ub", 1, 50⟩] none =
      Except.error FluxErr.infeasible := by
  refine ⟨qpInfeas_infeasible, ?_⟩
  unfold reconcile
  rw [show buildQP subsGlucoseOnly fluxFixture [⟨"ub", 1, 50⟩] none =
        Except.ok qpInfeas from rfl, ebind_ok,
      hs.1 qpInfeas qpInfeas_infeasible, ebind_err]

/-- C7 witness: a concrete contract-conforming solver indeed makes the
reconciliation of the infeasible instance report InfeasibleConstraints. -/
theorem C7_infeasible_bound_witness :
    reconcile solveStub subsGlucoseOnly fluxFixture [⟨"ub", 1, 50⟩] none =
      Except.error FluxErr.infeasible := by
  have hs : SolverContract solveStub :=
    ⟨fun qp h => rfl, fun qp x h => by simp [solveStub] at h⟩
  exact (C7_infeasible_bound solveStub hs).2

/-- C8: for the glucose-only substrate map, equality row 1 of the built
system is the single-coefficient row 1 at flux 1 with right-hand side
100·(glucose+galactose) = 100, so every flux vector satisfying the built
constraint system (as any vector returned by a contract-conforming solver
does) has flux 1 equal to 100, and this survives the post-solve
`rule_adjust` (acetate and lactate ratios are 0 here). -/
theorem C8_glucose_forces_flux1 (x : Fin 29 → ℚ) (hx : satisfies qpGlucose x) :
    qpGlucose.Aeq.getD 0 zeroVec = singleRow 0 1 ∧
    qpGlucose.beq.getD 0 0 = 100 ∧
    buildQP subsGlucoseOnly fluxFixture [] none = Except.ok qpGlucose ∧
    x 0 = 100 ∧
    (∃ y, rule_adjust x subsGlucoseOnly = Except.ok y ∧ y 0 = 100) := by
  have haeq : qpGlucose.Aeq.getD 0 zeroVec = singleRow 0 1 := by decide
  have hbeq : qpGlucose.beq.getD 0 0 = 100 * (1 + 0) := rfl
  have h1 := hx.1 0 (by rw [show qpGlucose.Aeq.length = 10 from rfl]; norm_num)
  rw [haeq, dot_singleRow, one_mul, hbeq] at h1
  have hx0 : x 0 = 100 := by rw [h1]; norm_num
  refine ⟨haeq, by rw [hbeq]; norm_num, rfl, hx0, ?_⟩
  unfold rule_adjust
  rw [subGet_some (show subsGlucoseOnly 13 = some 0 from rfl), ebind_ok,
      subGet_some (show subsGlucoseOnly 10 = some 0 from rfl), ebind_ok]
  simp only [ne_eq, not_true_eq_false, if_false]
  exact ⟨x, rfl, hx0⟩

/-- C8 witness: the point x₁ = 100, all other coordinates 0, satisfies the
whole glucose-only constraint system, and the theorem then yields flux 1 =
100 for it. -/
theorem C8_glucose_forces_flux1_witness :
    satisfies qpGlucose xStar ∧ xStar 0 = 100 := by
  have hsat : satisfies qpGlucose xStar := by
    constructor
    · intro i hi
      rw [show qpGlucose.Aeq.length = 10 from rfl] at hi
      interval_cases i
      · rw [dot_xStar, show qpGlucose.Aeq.getD 0 zeroVec 0 = 1 from rfl,
            show qpGlucose.beq.getD 0 0 = 100 * (1 + 0) from rfl]
        norm_num
      · rw [dot_xStar, show qpGlucose.Aeq.getD 1 zeroVec 0 = 0 from rfl,
            show qpGlucose.beq.getD 1 0 = -100 * 0 from rfl]
        norm_num
      · rw [dot_xStar, show qpGlucose.Aeq.getD 2 zeroVec 0 = 0 from rfl,
            show qpGlucose.beq.getD 2 0 = 0 from rfl]
        norm_num
      · rw [dot_xStar, show qpGlucose.Aeq.getD 3 zeroVec 0 = 0 from rfl,
            show qpGlucose.beq.getD 3 0 = 0 from rfl]
        norm_num
      · rw [dot_xStar, show qpGlucose.Aeq.getD 4 zeroVec 0 = 0 from rfl,
            show qpGlucose.beq.getD 4 0 = -100 * 0 from rfl]
        norm_num
      · rw [dot_xStar, show qpGlucose.Aeq.getD 5 zeroVec 0 = 0 from rfl,
            show qpGlucose.beq.getD 5 0 = 100 * 0 from rfl]
        norm_num
      · rw [dot_xStar, show qpGlucose.Aeq.getD 6 zeroVec 0 = 0 from rfl,
            show qpGlucose.beq.getD 6 0 = 100 * 0 from rfl]
        norm_num
      · rw [dot_xStar, show qpGlucose.Aeq.getD 7 zeroVec 0 = 0 from rfl,
            show qpGlucose.beq.getD 7 0 = 0 from rfl]
        norm_num
      · rw [dot_xStar, show qpGlucose.Aeq.getD 8 zeroVec 0 = 0 from rfl,
            show qpGlucose.beq.getD 8 0 = 100 * 0 from rfl]
        norm_num
      · rw [dot_xStar, show qpGlucose.Aeq.getD 9 zeroVec 0 = 0 from rfl,
            show qpGlucose.beq.getD 9 0 = -100 * 0 from rfl]
        norm_num
    · intro i hi
      rw [show qpGlucose.Aineq.length = 12 from rfl] at hi
      interval_cases i
      · rw [dot_xStar, show qpGlucose.Aineq.getD 0 zeroVec 0 = -1 from rfl,
            show qpGlucose.bineq.getD 0 0 = 0 from rfl]
        norm_num
      · rw [dot_xStar, show qpGlucose.Aineq.getD 1 zeroVec 0 = 0 from rfl,
            show qpGlucose.bineq.getD 1 0 = 100 * 0 from rfl]
        norm_num
      · rw [dot_xStar, show qpGlucose.Aineq.getD 2 zeroVec 0 = 0 from rfl,
            show qpGlucose.bineq.getD 2 0 = 0 from rfl]
        norm_num
      · rw [dot_xStar, show qpGlucose.Aineq.getD 3 zeroVec 0 = 0 from rfl,
            show qpGlucose.bineq.getD 3 0 = 0 from rfl]
        norm_num
      · rw [qpGlucose_row5, dot_zeroVec,
            show qpGlucose.bineq.getD 4 0 = 0 from rfl]
      · rw [dot_xStar, show qpGlucose.Aineq.getD 5 zeroVec 0 = 0 from rfl,
            show qpGlucose.bineq.getD 5 0 = 100 * 0 from rfl]
        norm_num
      · rw [dot_xStar, show qpGlucose.Aineq.getD 6 zeroVec 0 = 0 from rfl,
            show qpGlucose.bineq.getD 6 0 = 0 from rfl]
        norm_num
      · rw [dot_xStar, show qpGlucose.Aineq.getD 7 zeroVec 0 = 0 from rfl,
            show qpGlucose.bineq.getD 7 0 = 0 from rfl]
        norm_num
      · rw [dot_xStar, show qpGlucose.Aineq.getD 8 zeroVec 0 = 0 from rfl,
            show qpGlucose.bineq.getD 8 0 = 0 from rfl]
        norm_num
      · rw [dot_xStar, show qpGlucose.Aineq.getD 9 zeroVec 0 = 0 from rfl,
            show qpGlucose.bineq.getD 9 0 = 100 * 0 from rfl]
        norm_num
      · rw [dot_xStar, show qpGlucose.Aineq.getD 10 zeroVec 0 = 0 from rfl,
            show qpGlucose.bineq.getD 10 0 = 0 from rfl]
        norm_num
      · rw [dot_xStar, show qpGlucose.Aineq.getD 11 zeroVec 0 = 0 from rfl,
            show qpGlucose.bineq.getD 11 0 = 0 from rfl]
        norm_num
  exact ⟨hsat, (C8_glucose_forces_flux1 xStar hsat).2.2.2.1⟩
